import Mathlib

/-!
Verification of the coordinate parsing/validation and configuration-summary
logic of the GSQ polygon downloader front-end (radj.py).

The embedding models:
- `GSQDownloaderGUI.parse_coordinates` as `parse_coordinates`,
- `GSQDownloaderGUI.convert_latlon_to_lonlat` as `convert_latlon_to_lonlat`,
- `GSQDownloaderGUI.update_summary` as `update_summary`.

Python floats are embedded as exact rationals (the claims under study only
concern values produced by parsing plain decimal literals, where the
float/rational distinction is irrelevant to the compared properties), and
raised ValueError / KeyError exceptions become `Except` errors carrying a
structured description of the exception message.
-/

/-- Split a character list at every occurrence of the separator, mirroring
Python str.split(sep) for a one-character separator. -/
def splitChars (sep : Char) : List Char → List (List Char)
  | [] => [[]]
  | a :: rest =>
    match splitChars sep rest with
    | [] => if a = sep then [[], []] else [[a]]
    | g :: gs => if a = sep then [] :: g :: gs else (a :: g) :: gs

/-- Python str.split(sep) for a one-character separator, on `String`. -/
def pySplitChar (sep : Char) (s : String) : List String :=
  (splitChars sep s.data).map String.mk

/-- Python str.strip(): drop leading and trailing whitespace. -/
def pyStrip (s : String) : String :=
  String.mk (((s.data.dropWhile Char.isWhitespace).reverse.dropWhile Char.isWhitespace).reverse)

/-- Python str.split() with no argument: split on whitespace runs, dropping
empty pieces. -/
def pySplit (s : String) : List String :=
  ((splitChars ' ' (s.data.map fun c => if c.isWhitespace then ' ' else c)).filter
    (fun g => g ≠ [])).map String.mk

/-- Numeric value of a digit list, most significant digit first. -/
def digitsVal (cs : List Char) : Nat :=
  cs.foldl (fun n c => 10 * n + (c.toNat - 48)) 0

/-- Python float() restricted to plain decimal literals: surrounding
whitespace, an optional sign, integer digits and an optional fractional part
(scientific notation, inf/nan and digit underscores are not modelled; the
inputs of interest are plain decimals). Returns the exact rational value. -/
def parseFloat? (s : String) : Option ℚ :=
  let t := (pyStrip s).data
  let signBody : Int × List Char :=
    match t with
    | '-' :: rest => (-1, rest)
    | '+' :: rest => (1, rest)
    | cs => (1, cs)
  match splitChars '.' signBody.2 with
  | [ip] =>
    if ip ≠ [] ∧ ip.all Char.isDigit then
      some (mkRat (signBody.1 * digitsVal ip) 1)
    else none
  | [ip, fp] =>
    if (ip ≠ [] ∨ fp ≠ []) ∧ ip.all Char.isDigit ∧ fp.all Char.isDigit then
      some (mkRat (signBody.1 * (digitsVal ip * 10 ^ fp.length + digitsVal fp)) (10 ^ fp.length))
    else none
  | _ => none

/-- The ValueError raised inside the per-line try block of
`parse_coordinates` (lines 432-445 of radj.py): tuple-unpack failure of
line.split(','), float() conversion failure, or a Queensland bounds
violation for latitude or longitude. -/
inductive InnerError where
  | unpackMismatch (nparts : Nat)
  | floatError (tok : String)
  | latRange (lat : ℚ)
  | lonRange (lon : ℚ)
deriving DecidableEq

/-- The ValueError raised by `parse_coordinates` as a whole: empty input,
missing separator, a wrapped per-line error, or too few coordinates. -/
inductive ParseError where
  | noCoordinates
  | invalidFormat (line : String)
  | lineError (line : String) (e : InnerError)
  | needAtLeast3
deriving DecidableEq

/-- Message text of the per-line exceptions, as Python renders them. -/
def InnerError.message : InnerError → String
  | .unpackMismatch n =>
    if n < 2 then "not enough values to unpack (expected 2, got " ++ toString n ++ ")"
    else "too many values to unpack (expected 2)"
  | .floatError tok => "could not convert string to float: \x27" ++ tok ++ "\x27"
  | .latRange v => "Latitude " ++ toString v ++ " outside Queensland range (-29 to -10)"
  | .lonRange v => "Longitude " ++ toString v ++ " outside Queensland range (138 to 154)"

/-- Message text of the errors raised by `parse_coordinates`. -/
def ParseError.message : ParseError → String
  | .noCoordinates => "No coordinates entered"
  | .invalidFormat line => "Invalid format: " ++ line ++ ". Use latitude,longitude"
  | .lineError line e => "Error parsing line \x27" ++ line ++ "\x27: " ++ e.message
  | .needAtLeast3 => "Need at least 3 coordinates"

/-- Body of the per-line try block of `parse_coordinates` (radj.py lines
432-443): split the line on the comma, convert both tokens with float(),
check the Queensland bounds, and return the [lat, lon] pair. -/
def parseLine (line : String) : Except InnerError (ℚ × ℚ) :=
  match pySplitChar ',' line with
  | [lat_str, lon_str] =>
    match parseFloat? lat_str with
    | none => .error (.floatError (pyStrip lat_str))
    | some lat =>
      match parseFloat? lon_str with
      | none => .error (.floatError (pyStrip lon_str))
      | some lon =>
        if ¬ (-29 ≤ lat ∧ lat ≤ -10) then .error (.latRange lat)
        else if ¬ (138 ≤ lon ∧ lon ≤ 154) then .error (.lonRange lon)
        else .ok (lat, lon)
  | parts => .error (.unpackMismatch parts.length)

/-- The accumulation loop of `parse_coordinates` (radj.py lines 423-445):
strip each line, skip blank lines, require the comma separator, parse the
line, and collect the coordinates in input order, stopping at the first
failing line. -/
def gatherCoords : List String → Except ParseError (List (ℚ × ℚ))
  | [] => .ok []
  | rawLine :: rest =>
    let line := pyStrip rawLine
    if line = "" then gatherCoords rest
    else if ¬ line.data.contains ',' then .error (.invalidFormat line)
    else
      match parseLine line with
      | .error e => .error (.lineError line e)
      | .ok c =>
        match gatherCoords rest with
        | .error e => .error e
        | .ok cs => .ok (c :: cs)

/-- The close-polygon step of `parse_coordinates` (radj.py lines 450-452):
append the first coordinate when it differs from the last one. -/
def closeRing (coordinates : List (ℚ × ℚ)) : List (ℚ × ℚ) :=
  match coordinates with
  | [] => []
  | c :: cs =>
    if (c :: cs).getLast (List.cons_ne_nil c cs) = c then c :: cs
    else (c :: cs) ++ [c]

/-- Model of GSQDownloaderGUI.parse_coordinates (radj.py lines 417-454): strip the
text, fail on empty input, gather the coordinates line by line, require at
least 3, and append the first coordinate when the ring is not closed. -/
def parse_coordinates (coords_text : String) : Except ParseError (List (ℚ × ℚ)) :=
  let t := pyStrip coords_text
  if t = "" then .error .noCoordinates
  else
    match gatherCoords (pySplitChar '\n' t) with
    | .error e => .error e
    | .ok coordinates =>
      if coordinates.length < 3 then .error .needAtLeast3
      else .ok (closeRing coordinates)

/-- Model of GSQDownloaderGUI.convert_latlon_to_lonlat (radj.py lines 456-458):
swap each [lat, lon] pair to [lon, lat]. -/
def convert_latlon_to_lonlat (latlon_coords : List (ℚ × ℚ)) : List (ℚ × ℚ) :=
  latlon_coords.map (fun coord => (coord.2, coord.1))

/-- The form state read by `update_summary`: the widget variables, the
coordinate text, and the data_types table (name to suggested search terms;
only the terms field is consulted by the summarizer). -/
structure FormState where
  region : String
  data_type : String
  search_mode : String
  custom_terms : String
  file_format : String
  max_datasets : String
  output_dir : String
  precise_filtering : Bool
  preview_mode : Bool
  coords_text : String
  data_types : List (String × List String)

/-- Python dict lookup self.data_types[data_type]['terms'], as an option. -/
def lookupTerms (table : List (String × List String)) (key : String) : Option (List String) :=
  (table.find? (fun p => p.1 == key)).map (fun p => p.2)

/-- Python sep.join(pieces). -/
def joinSep (sep : String) : List String → String
  | [] => ""
  | [s] => s
  | s :: rest => s ++ sep ++ joinSep sep rest

/-- The search-terms construction of `update_summary` (radj.py lines
480-486). A missing data_type key raises KeyError, modelled as the error
case carrying the key. -/
def buildTerms (st : FormState) : Except String String :=
  if st.search_mode = "suggested" then
    match lookupTerms st.data_types st.data_type with
    | none => .error st.data_type
    | some ts => .ok (joinSep " OR " (ts.take 3))
  else if st.search_mode = "custom" then
    let ct := pyStrip st.custom_terms
    .ok (if ct ≠ "" then joinSep " OR " (pySplit ct) else "No terms")
  else .ok "*:* (everything)"

/-- The coordinates-info computation of `update_summary` (radj.py lines
488-493): a bare except around parse_coordinates renders every parsing
failure as the fixed invalid/missing status string. -/
def coordsInfo (st : FormState) : String :=
  match parse_coordinates st.coords_text with
  | .ok coords => "Valid polygon with " ++ toString (coords.length - 1) ++ " vertices"
  | .error _ => "Invalid or missing coordinates"

/-- The part of the summary f-string (radj.py lines 495-512) preceding the
coordinates info. -/
def summaryHeader (st : FormState) : String :=
  "📋 DOWNLOAD CONFIGURATION\n" ++ String.mk (List.replicate 50 '=') ++
    "\n\n📍 Search Area: " ++ st.region ++ "\n   Coordinates: "

/-- The part of the summary f-string (radj.py lines 495-512) following the
coordinates info. -/
def summaryRest (st : FormState) (terms : String) : String :=
  "\n\n🔬 Data Type: " ++ st.data_type ++ "\n   Search Terms: " ++ terms ++
    "\n   File Formats: " ++ st.file_format ++
    "\n\n⚙️ Settings:\n   Max Datasets: " ++ st.max_datasets ++
    "\n   Output Directory: " ++ st.output_dir ++
    "\n   Precise Filtering: " ++ (if st.precise_filtering then "Yes" else "No") ++
    "\n   Preview Mode: " ++ (if st.preview_mode then "Yes" else "No") ++
    "\n\nStatus: " ++ (if st.preview_mode then "Ready for preview" else "Ready for download") ++
    "\n"

/-- The summary f-string of `update_summary` with the terms and the
coordinates info spliced in. -/
def summaryText (st : FormState) (terms coords_info : String) : String :=
  summaryHeader st ++ (coords_info ++ summaryRest st terms)

/-- Model of GSQDownloaderGUI.update_summary (radj.py lines 466-519): build the
summary text; the outer try/except renders any escaped exception (only the
data_types KeyError in this model) as an error status string written to the
summary widget. Returns the text written to the widget. -/
def update_summary (st : FormState) : String :=
  match buildTerms st with
  | .ok terms => summaryText st terms (coordsInfo st)
  | .error key => "Error updating summary: \x27" ++ key ++ "\x27"

/-- Decidable equality for Except results, used to evaluate the model on
concrete inputs. -/
instance {ε α : Type} [DecidableEq ε] [DecidableEq α] : DecidableEq (Except ε α) := fun x y =>
  match x, y with
  | .ok a, .ok b =>
    if h : a = b then isTrue (by rw [h]) else isFalse (by intro hc; cases hc; exact h rfl)
  | .ok _, .error _ => isFalse (by intro hc; cases hc)
  | .error _, .ok _ => isFalse (by intro hc; cases hc)
  | .error e, .error f =>
    if h : e = f then isTrue (by rw [h]) else isFalse (by intro hc; cases hc; exact h rfl)

/-- A text line accepted by the parsing loop: non-blank after stripping and
successfully parsed (including the bounds checks) by the try-block body. -/
def validCoordLine (l : String) : Bool :=
  pyStrip l ≠ "" ∧ (parseLine (pyStrip l)).toOption.isSome

/-- Coordinate produced by one line of the loop, none for blank lines. -/
def lineOpt (l : String) : Option (ℚ × ℚ) :=
  if pyStrip l = "" then none else (parseLine (pyStrip l)).toOption

/-- The Queensland bounding region enforced by `parse_coordinates`. -/
def inQldBounds (c : ℚ × ℚ) : Prop :=
  -29 ≤ c.1 ∧ c.1 ≤ -10 ∧ 138 ≤ c.2 ∧ c.2 ≤ 154

/-- At least three pairwise distinct coordinates occur in the list. -/
def threeDistinct (cs : List (ℚ × ℚ)) : Prop :=
  ∃ a ∈ cs, ∃ b ∈ cs, ∃ c ∈ cs, a ≠ b ∧ a ≠ c ∧ b ≠ c

/-- A coordinate returned by the per-line body passed both bounds checks. -/
theorem parseLine_ok_bounds {l : String} {c : ℚ × ℚ} (h : parseLine l = .ok c) :
    inQldBounds c := by
  unfold parseLine at h
  split at h
  · split at h
    · exact Except.noConfusion h
    · split at h
      · exact Except.noConfusion h
      · split at h
        · exact Except.noConfusion h
        · split at h
          · exact Except.noConfusion h
          · rename_i lat lon hla hlo
            cases h
            rw [Decidable.not_not] at hla hlo
            exact ⟨hla.1, hla.2, hlo.1, hlo.2⟩
  · exact Except.noConfusion h

/-- A line accepted by the per-line body split into exactly two comma
pieces. -/
theorem parseLine_ok_parts {l : String} {c : ℚ × ℚ} (h : parseLine l = .ok c) :
    (pySplitChar ',' l).length = 2 := by
  unfold parseLine at h
  split at h
  · rename_i heq
    rw [heq]
    rfl
  · exact Except.noConfusion h

/-- Splitting yields at least two pieces only when the separator occurs. -/
theorem mem_of_two_le_splitChars {sep : Char} :
    ∀ cs : List Char, 2 ≤ (splitChars sep cs).length → sep ∈ cs := by
  intro cs
  induction cs with
  | nil => intro h; simp [splitChars] at h
  | cons a rest ih =>
    intro h
    unfold splitChars at h
    by_cases hs : a = sep
    · subst hs; exact List.mem_cons_self a rest
    · right
      apply ih
      rcases hrec : splitChars sep rest with _ | ⟨g, gs⟩
      · rw [hrec] at h; simp [hs] at h
      · rw [hrec] at h
        simp [hs] at h
        simp [hrec]
        omega

/-- A line accepted by the per-line body contains the comma separator. -/
theorem parseLine_ok_contains {l : String} {c : ℚ × ℚ} (h : parseLine l = .ok c) :
    l.data.contains ',' = true := by
  have h2 := parseLine_ok_parts h
  have hmem : ',' ∈ l.data := by
    apply mem_of_two_le_splitChars
    have : (splitChars ',' l.data).length = 2 := by
      simpa [pySplitChar] using h2
    omega
  simpa using hmem

/-- The per-line result option is some exactly for valid lines. -/
theorem lineOpt_isSome_eq_valid (l : String) : (lineOpt l).isSome = validCoordLine l := by
  unfold lineOpt validCoordLine
  by_cases h : pyStrip l = "" <;> simp [h]

/-- A successful gathering pass returns exactly the per-line coordinates of
the non-blank lines, in input order. -/
theorem gatherCoords_ok_filterMap :
    ∀ {ls : List String} {cs : List (ℚ × ℚ)}, gatherCoords ls = .ok cs →
      cs = ls.filterMap lineOpt := by
  intro ls
  induction ls with
  | nil => intro cs h; cases h; rfl
  | cons rawLine rest ih =>
    intro cs h
    unfold gatherCoords at h
    by_cases hb : pyStrip rawLine = ""
    · rw [if_pos hb] at h
      simp [List.filterMap_cons, lineOpt, hb]
      exact ih h
    · rw [if_neg hb] at h
      split at h
      · exact Except.noConfusion h
      · split at h
        · exact Except.noConfusion h
        · rename_i c hpl
          split at h
          · exact Except.noConfusion h
          · rename_i cs' hrest
            cases h
            simp [List.filterMap_cons, lineOpt, hb, hpl, Except.toOption]
            exact ih hrest

/-- Gathering succeeds on a list of blank or valid lines and returns the
per-line coordinates of the non-blank ones. -/
theorem gatherCoords_ok_of_valid :
    ∀ {ls : List String}, (∀ l ∈ ls, pyStrip l = "" ∨ validCoordLine l = true) →
      gatherCoords ls = .ok (ls.filterMap lineOpt) := by
  intro ls
  induction ls with
  | nil => intro _; rfl
  | cons rawLine rest ih =>
    intro hval
    have hrest : gatherCoords rest = .ok (rest.filterMap lineOpt) :=
      ih (fun l hl => hval l (List.mem_cons_of_mem _ hl))
    unfold gatherCoords
    by_cases hb : pyStrip rawLine = ""
    · rw [if_pos hb, hrest]
      simp [List.filterMap_cons, lineOpt, hb]
    · have hv : validCoordLine rawLine = true := by
        rcases hval rawLine (List.mem_cons_self _ _) with h | h
        · exact absurd h hb
        · exact h
      have hsome : (parseLine (pyStrip rawLine)).toOption.isSome = true := by
        unfold validCoordLine at hv
        simpa [hb] using hv
      rcases hpl : parseLine (pyStrip rawLine) with e | c
      · rw [hpl] at hsome; simp [Except.toOption] at hsome
      · have hcm : ',' ∈ (pyStrip rawLine).data := by
          simpa using parseLine_ok_contains hpl
        rw [if_neg hb, if_neg (by simp [hcm]), hpl, hrest]
        simp [List.filterMap_cons, lineOpt, hb, hpl, Except.toOption]

/-- Every coordinate gathered from the lines lies inside the Queensland
bounds. -/
theorem gatherCoords_ok_bounds :
    ∀ {ls : List String} {cs : List (ℚ × ℚ)}, gatherCoords ls = .ok cs →
      ∀ c ∈ cs, inQldBounds c := by
  intro ls
  induction ls with
  | nil => intro cs h c hc; cases h; cases hc
  | cons rawLine rest ih =>
    intro cs h c hc
    unfold gatherCoords at h
    by_cases hb : pyStrip rawLine = ""
    · rw [if_pos hb] at h
      exact ih h c hc
    · rw [if_neg hb] at h
      split at h
      · exact Except.noConfusion h
      · split at h
        · exact Except.noConfusion h
        · rename_i c0 hpl
          split at h
          · exact Except.noConfusion h
          · rename_i cs' hrest
            cases h
            rcases List.mem_cons.mp hc with hc | hc
            · exact hc ▸ parseLine_ok_bounds hpl
            · exact ih hrest c hc

/-- Under a successful gathering pass every line is blank or valid. -/
theorem gatherCoords_ok_line_valid :
    ∀ {ls : List String} {cs : List (ℚ × ℚ)}, gatherCoords ls = .ok cs →
      ∀ l ∈ ls, pyStrip l = "" ∨ validCoordLine l = true := by
  intro ls
  induction ls with
  | nil => intro cs h l hl; cases hl
  | cons rawLine rest ih =>
    intro cs h l hl
    unfold gatherCoords at h
    by_cases hb : pyStrip rawLine = ""
    · rw [if_pos hb] at h
      rcases List.mem_cons.mp hl with hl | hl
      · exact Or.inl (hl ▸ hb)
      · exact ih h l hl
    · rw [if_neg hb] at h
      split at h
      · exact Except.noConfusion h
      · split at h
        · exact Except.noConfusion h
        · rename_i c0 hpl
          split at h
          · exact Except.noConfusion h
          · rename_i cs' hrest
            rcases List.mem_cons.mp hl with hl | hl
            · subst hl
              exact Or.inr (by unfold validCoordLine; simp [hb, hpl, Except.toOption])
            · exact ih hrest l hl

/-- On all-valid lines the gathered list has one coordinate per line. -/
theorem filterMap_lineOpt_length_valid :
    ∀ {ls : List String}, (∀ l ∈ ls, validCoordLine l = true) →
      (ls.filterMap lineOpt).length = ls.length := by
  intro ls
  induction ls with
  | nil => intro _; rfl
  | cons a rest ih =>
    intro hval
    have ha : (lineOpt a).isSome = true := by
      rw [lineOpt_isSome_eq_valid]; exact hval a (List.mem_cons_self _ _)
    rcases Option.isSome_iff_exists.mp ha with ⟨c, hc⟩
    have hrec := ih (fun l hl => hval l (List.mem_cons_of_mem _ hl))
    simp only [List.filterMap_cons, hc, List.length_cons, hrec]

/-- The gathered list has exactly one coordinate per valid line. -/
theorem filterMap_lineOpt_length_filter :
    ∀ ls : List String, (ls.filterMap lineOpt).length = (ls.filter validCoordLine).length := by
  intro ls
  induction ls with
  | nil => rfl
  | cons a rest ih =>
    by_cases ha : validCoordLine a = true
    · have : (lineOpt a).isSome = true := by rw [lineOpt_isSome_eq_valid]; exact ha
      rcases Option.isSome_iff_exists.mp this with ⟨c, hc⟩
      simp [List.filterMap_cons, List.filter_cons, hc, ha, ih]
    · have hfa : validCoordLine a = false := Bool.not_eq_true _ ▸ (Bool.eq_false_iff.mpr ha)
      have hnone : lineOpt a = none := by
        have h1 := lineOpt_isSome_eq_valid a
        rw [hfa] at h1
        exact Option.not_isSome_iff_eq_none.mp (by simp [h1])
      simp [List.filterMap_cons, List.filter_cons, hnone, hfa, ih]

/-- A non-blank line that does not split into exactly two comma pieces makes
the gathering pass fail. -/
theorem gatherCoords_error_of_badline :
    ∀ {ls : List String}, (∃ l ∈ ls, pyStrip l ≠ "" ∧ (pySplitChar ',' (pyStrip l)).length ≠ 2) →
      ∃ e, gatherCoords ls = .error e := by
  intro ls
  induction ls with
  | nil => rintro ⟨l, hl, _⟩; cases hl
  | cons rawLine rest ih =>
    rintro ⟨l, hl, hnb, hparts⟩
    unfold gatherCoords
    by_cases hb : pyStrip rawLine = ""
    · rw [if_pos hb]
      apply ih
      refine ⟨l, ?_, hnb, hparts⟩
      rcases List.mem_cons.mp hl with hl | hl
      · exact absurd (hl ▸ hb) hnb
      · exact hl
    · rw [if_neg hb]
      by_cases hcm : (pyStrip rawLine).data.contains ',' = true
      · have hm : ',' ∈ (pyStrip rawLine).data := by simpa using hcm
        rw [if_neg (by simp [hm])]
        rcases hpl : parseLine (pyStrip rawLine) with e | c
        · exact ⟨_, rfl⟩
        · have hraw2 : (pySplitChar ',' (pyStrip rawLine)).length = 2 := parseLine_ok_parts hpl
          have hlr : l ∈ rest := by
            rcases List.mem_cons.mp hl with hl | hl
            · exact absurd (hl ▸ hraw2) hparts
            · exact hl
          rcases ih ⟨l, hlr, hnb, hparts⟩ with ⟨e, he⟩
          rw [he]
          exact ⟨e, rfl⟩
      · have hm : ',' ∉ (pyStrip rawLine).data := by simpa using hcm
        rw [if_pos (by simp [hm])]
        exact ⟨_, rfl⟩

/-- Blank lines are skipped: gathering ignores them entirely. -/
theorem gatherCoords_filter_blank :
    ∀ ls : List String,
      gatherCoords ls = gatherCoords (ls.filter (fun l => !(pyStrip l == ""))) := by
  intro ls
  induction ls with
  | nil => rfl
  | cons rawLine rest ih =>
    by_cases hb : pyStrip rawLine = ""
    · rw [List.filter_cons_of_neg (by simp [hb])]
      simp only [gatherCoords]
      rw [if_pos hb]
      exact ih
    · rw [List.filter_cons_of_pos (by simp [hb])]
      simp only [gatherCoords]
      rw [ih]

/-- The parser fails with the distinct empty-input error on blank text. -/
theorem parse_eq_noCoords {txt : String} (h : pyStrip txt = "") :
    parse_coordinates txt = .error .noCoordinates := by
  unfold parse_coordinates
  rw [if_pos h]

/-- A gathering failure is the parser's failure. -/
theorem parse_eq_gather_error {txt : String} {e : ParseError}
    (hne : pyStrip txt ≠ "")
    (hg : gatherCoords (pySplitChar '\n' (pyStrip txt)) = .error e) :
    parse_coordinates txt = .error e := by
  unfold parse_coordinates
  rw [if_neg hne, hg]

/-- Fewer than three gathered coordinates fail the vertex-count check. -/
theorem parse_eq_too_few {txt : String} {pre : List (ℚ × ℚ)}
    (hne : pyStrip txt ≠ "")
    (hg : gatherCoords (pySplitChar '\n' (pyStrip txt)) = .ok pre)
    (h3 : pre.length < 3) :
    parse_coordinates txt = .error .needAtLeast3 := by
  unfold parse_coordinates
  rw [if_neg hne, hg]
  exact if_pos h3

/-- The close-polygon step in head?/getLast? form: the list is returned
unchanged when the first and last coordinates agree, and gets the first
coordinate appended otherwise. -/
theorem closeRing_eq (pre : List (ℚ × ℚ)) :
    closeRing pre = (if pre.getLast? = pre.head? then pre else pre ++ pre.head?.toList) := by
  rcases pre with _ | ⟨c, cs⟩
  · rfl
  · have hlast : (c :: cs).getLast? = some ((c :: cs).getLast (List.cons_ne_nil c cs)) :=
      List.getLast?_eq_getLast _ _
    show (if (c :: cs).getLast (List.cons_ne_nil c cs) = c then c :: cs else (c :: cs) ++ [c]) =
      (if (c :: cs).getLast? = (c :: cs).head? then c :: cs
        else (c :: cs) ++ (c :: cs).head?.toList)
    by_cases heq : (c :: cs).getLast (List.cons_ne_nil c cs) = c
    · rw [if_pos heq, if_pos (by rw [hlast, heq]; rfl)]
    · rw [if_neg heq,
        if_neg (by rw [hlast]; simp only [List.head?_cons, Option.some_inj]; exact heq)]
      rfl

/-- With at least three gathered coordinates the parser returns the closed
ring of the gathered list. -/
theorem parse_eq_ok {txt : String} {pre : List (ℚ × ℚ)}
    (hne : pyStrip txt ≠ "")
    (hg : gatherCoords (pySplitChar '\n' (pyStrip txt)) = .ok pre)
    (h3 : 3 ≤ pre.length) :
    parse_coordinates txt = .ok (closeRing pre) := by
  unfold parse_coordinates
  rw [if_neg hne, hg]
  exact if_neg (by omega)

/-- Inversion of a successful parse: the text is non-blank, gathering
succeeded with at least three coordinates, and the output is the closed
ring of the gathered list. -/
theorem parse_ok_inv {txt : String} {cs : List (ℚ × ℚ)}
    (h : parse_coordinates txt = .ok cs) :
    pyStrip txt ≠ "" ∧
      ∃ pre, gatherCoords (pySplitChar '\n' (pyStrip txt)) = .ok pre ∧ 3 ≤ pre.length ∧
        cs = closeRing pre := by
  unfold parse_coordinates at h
  by_cases hne : pyStrip txt = ""
  · rw [if_pos hne] at h; exact Except.noConfusion h
  · rw [if_neg hne] at h
    refine ⟨hne, ?_⟩
    split at h
    · exact Except.noConfusion h
    · rename_i pre hg
      split at h
      · exact Except.noConfusion h
      · rename_i hlen
        cases h
        exact ⟨pre, hg, by omega, rfl⟩

/-- First element of a filterMap, through the kept elements. -/
theorem filterMap_head?_bind {α β : Type} (f : α → Option β) :
    ∀ ls : List α,
      (ls.filterMap f).head? = ((ls.filter fun a => (f a).isSome).head?).bind f := by
  intro ls
  induction ls with
  | nil => rfl
  | cons a rest ih =>
    rcases hfa : f a with _ | b
    · simp [List.filterMap_cons, List.filter_cons, hfa, ih]
    · simp [List.filterMap_cons, List.filter_cons, hfa]

/-- Last element of a filterMap, through the kept elements. -/
theorem filterMap_getLast?_bind {α β : Type} (f : α → Option β) (ls : List α) :
    (ls.filterMap f).getLast? = ((ls.filter fun a => (f a).isSome).getLast?).bind f := by
  rw [List.getLast?_eq_head?_reverse, ← List.filterMap_reverse,
    filterMap_head?_bind, List.filter_reverse, List.head?_reverse]

/-- Under a successful gathering pass, the non-blank lines are exactly the
valid ones. -/
theorem gatherCoords_ok_filter_nonblank {ls : List String} {cs : List (ℚ × ℚ)}
    (h : gatherCoords ls = .ok cs) :
    ls.filter (fun l => !(pyStrip l == "")) = ls.filter (fun l => (lineOpt l).isSome) := by
  apply List.filter_congr
  intro l hl
  rcases gatherCoords_ok_line_valid h l hl with hb | hv
  · simp [hb, lineOpt]
  · rw [lineOpt_isSome_eq_valid, hv]
    have : pyStrip l ≠ "" := by
      unfold validCoordLine at hv
      simpa using (of_decide_eq_true (by simpa using congrArg (fun b => b) hv) : _ ∧ _).1
    simp [this]

/-- Claim C9: the longitude-latitude conversion is an involution: applying
convert_latlon_to_lonlat twice returns the original list of coordinate
pairs. -/
theorem C9_theorem (latlon_coords : List (ℚ × ℚ)) :
    convert_latlon_to_lonlat (convert_latlon_to_lonlat latlon_coords) = latlon_coords := by
  induction latlon_coords with
  | nil => rfl
  | cons c rest ih =>
    simp only [convert_latlon_to_lonlat, List.map_cons] at *
    rw [ih]

/-- Claim C6: the line "-21.0,139.0" parses to latitude -21.0 and longitude
139.0, and the longitude-latitude ordering is the pure per-element swap of
each pair, preserving length and order. -/
theorem C6_theorem :
    parseLine "-21.0,139.0" = .ok (-21, 139) ∧
    convert_latlon_to_lonlat [(-21, 139)] = [(139, -21)] ∧
    (∀ l : List (ℚ × ℚ), (convert_latlon_to_lonlat l).length = l.length) ∧
    (∀ (l : List (ℚ × ℚ)) (i : Nat),
      (convert_latlon_to_lonlat l)[i]? = (l[i]?).map (fun c => (c.2, c.1))) := by
  refine ⟨by decide, by decide, ?_, ?_⟩
  · intro l; simp [convert_latlon_to_lonlat]
  · intro l i; simp [convert_latlon_to_lonlat]

/-- Claim C10: blank or whitespace-only input fails with the distinct
"No coordinates entered" error, which is not the minimum-vertex-count
error, and blank lines are skipped by the gathering loop without affecting
its result. -/
theorem C10_theorem :
    (∀ txt : String, pyStrip txt = "" → parse_coordinates txt = .error .noCoordinates) ∧
    (ParseError.noCoordinates ≠ ParseError.needAtLeast3) ∧
    (∀ ls : List String,
      gatherCoords ls = gatherCoords (ls.filter (fun l => !(pyStrip l == "")))) := by
  exact ⟨fun txt h => parse_eq_noCoords h, by decide, gatherCoords_filter_blank⟩

/-- Claim C10 witness: whitespace-only text hits the empty-input error. -/
theorem C10_witness :
    pyStrip "  \n\t " = "" ∧ parse_coordinates "  \n\t " = .error .noCoordinates :=
  ⟨by decide, C10_theorem.1 "  \n\t " (by decide)⟩

/-- Claim C2: every coordinate returned by a successful parse lies in the
configured bounds (latitude in [-29, -10], longitude in [138, 154]); and
the input whose first line has latitude -30.0 fails with an error naming
the out-of-range value and the latitude field, whose rendered message
contains the word Latitude and the value -30. -/
theorem C2_theorem :
    (∀ (txt : String) (cs : List (ℚ × ℚ)), parse_coordinates txt = .ok cs →
      ∀ c ∈ cs, inQldBounds c) ∧
    (parse_coordinates "-30.0,139.0\n-21.0,139.0\n-22.0,139.0" =
        .error (.lineError "-30.0,139.0" (.latRange (-30))) ∧
      "Latitude".data <:+:
        (ParseError.lineError "-30.0,139.0" (InnerError.latRange (-30))).message.data ∧
      "-30".data <:+:
        (ParseError.lineError "-30.0,139.0" (InnerError.latRange (-30))).message.data) := by
  constructor
  · intro txt cs h c hc
    rcases parse_ok_inv h with ⟨hne, pre, hg, h3, hcs⟩
    have hbound := gatherCoords_ok_bounds hg
    subst hcs
    rw [closeRing_eq] at hc
    split at hc
    · exact hbound c hc
    · rcases List.mem_append.mp hc with hc | hc
      · exact hbound c hc
      · rcases pre with _ | ⟨c0, pre'⟩
        · cases hc
        · simp at hc
          exact hbound c (hc ▸ List.mem_cons_self c0 pre')
  · exact ⟨by decide, by decide, by decide⟩

/-- Claim C2 witness: a concrete in-bounds parse instantiating the
universal bounds statement. -/
theorem C2_witness :
    parse_coordinates "-21.0,139.0\n-22.0,139.0\n-23.0,139.0" =
        .ok [(-21, 139), (-22, 139), (-23, 139), (-21, 139)] ∧
      ∀ c ∈ [((-21 : ℚ), (139 : ℚ)), (-22, 139), (-23, 139), (-21, 139)], inQldBounds c :=
  ⟨by decide, C2_theorem.1 "-21.0,139.0\n-22.0,139.0\n-23.0,139.0" _ (by decide)⟩

/-- Claim C1 counterexample: three valid in-bounds lines whose first and
last lines differ as text but parse to the same coordinate; the parser
returns 3 coordinates, not the 3 + 1 the claim predicts. -/
theorem C1_counterexample :
    (pySplitChar '\n' (pyStrip "-21.0,139.0\n-22.0,139.0\n-21.00,139.0")).length = 3 ∧
    (pySplitChar '\n' (pyStrip "-21.0,139.0\n-22.0,139.0\n-21.00,139.0")).all validCoordLine
      = true ∧
    (pySplitChar '\n' (pyStrip "-21.0,139.0\n-22.0,139.0\n-21.00,139.0")).head? ≠
      (pySplitChar '\n' (pyStrip "-21.0,139.0\n-22.0,139.0\n-21.00,139.0")).getLast? ∧
    parse_coordinates "-21.0,139.0\n-22.0,139.0\n-21.00,139.0" =
      .ok [(-21, 139), (-22, 139), (-21, 139)] ∧
    ([((-21 : ℚ), (139 : ℚ)), (-22, 139), (-21, 139)].length ≠ 3 + 1) := by
  decide

/-- Claim C1 as amended: for text of at least 3 valid in-bounds lines, the
output length is the line count plus 1 when the first and last PARSED
coordinates differ, and the line count when they coincide (the code
compares coordinate values, not line text). -/
theorem C1_theorem (txt : String)
    (hval : ∀ l ∈ pySplitChar '\n' (pyStrip txt), validCoordLine l = true)
    (hlen : 3 ≤ (pySplitChar '\n' (pyStrip txt)).length) :
    ∃ pre cs, gatherCoords (pySplitChar '\n' (pyStrip txt)) = .ok pre ∧
      pre.length = (pySplitChar '\n' (pyStrip txt)).length ∧
      parse_coordinates txt = .ok cs ∧
      cs.length = (if pre.getLast? = pre.head? then pre.length else pre.length + 1) := by
  have hnb : ∀ l ∈ pySplitChar '\n' (pyStrip txt), pyStrip l = "" ∨ validCoordLine l = true :=
    fun l hl => Or.inr (hval l hl)
  have hg := gatherCoords_ok_of_valid hnb
  have hlenpre := filterMap_lineOpt_length_valid hval
  have hne : pyStrip txt ≠ "" := by
    intro h0
    have hls : pySplitChar '\n' (pyStrip txt) = [""] := by rw [h0]; rfl
    have := hval "" (by rw [hls]; exact List.mem_singleton_self "")
    exact absurd this (by decide)
  have h3 : 3 ≤ ((pySplitChar '\n' (pyStrip txt)).filterMap lineOpt).length := by
    rw [hlenpre]; exact hlen
  refine ⟨(pySplitChar '\n' (pyStrip txt)).filterMap lineOpt,
    closeRing ((pySplitChar '\n' (pyStrip txt)).filterMap lineOpt),
    hg, hlenpre, parse_eq_ok hne hg h3, ?_⟩
  rw [closeRing_eq]
  by_cases hP : ((pySplitChar '\n' (pyStrip txt)).filterMap lineOpt).getLast? =
      ((pySplitChar '\n' (pyStrip txt)).filterMap lineOpt).head?
  · rw [if_pos hP, if_pos hP]
  · rw [if_neg hP, if_neg hP]
    rcases hfm : (pySplitChar '\n' (pyStrip txt)).filterMap lineOpt with _ | ⟨c, pre'⟩
    · rw [hfm] at h3; simp at h3
    · simp

/-- Claim C1 witness: a concrete open three-line polygon instantiating the
amended statement, with one closing vertex appended. -/
theorem C1_witness :
    ((pySplitChar '\n' (pyStrip "-21.0,139.0\n-22.0,139.0\n-23.0,139.0")).all validCoordLine
        = true ∧
      3 ≤ (pySplitChar '\n' (pyStrip "-21.0,139.0\n-22.0,139.0\n-23.0,139.0")).length) ∧
    (∃ pre cs,
      gatherCoords (pySplitChar '\n' (pyStrip "-21.0,139.0\n-22.0,139.0\n-23.0,139.0")) =
        .ok pre ∧
      pre.length =
        (pySplitChar '\n' (pyStrip "-21.0,139.0\n-22.0,139.0\n-23.0,139.0")).length ∧
      parse_coordinates "-21.0,139.0\n-22.0,139.0\n-23.0,139.0" = .ok cs ∧
      cs.length = (if pre.getLast? = pre.head? then pre.length else pre.length + 1)) :=
  ⟨by decide, C1_theorem "-21.0,139.0\n-22.0,139.0\n-23.0,139.0" (by decide) (by decide)⟩

/-- Claim C3 counterexample: three identical valid lines are accepted by
the parser although fewer than 3 of the pre-closure vertices are pairwise
distinct. -/
theorem C3_counterexample :
    gatherCoords (pySplitChar '\n' (pyStrip "-21.0,139.0\n-21.0,139.0\n-21.0,139.0")) =
        .ok [(-21, 139), (-21, 139), (-21, 139)] ∧
    parse_coordinates "-21.0,139.0\n-21.0,139.0\n-21.0,139.0" =
        .ok [(-21, 139), (-21, 139), (-21, 139)] ∧
    ¬ threeDistinct [(-21, 139), (-21, 139), (-21, 139)] := by
  refine ⟨by decide, by decide, ?_⟩
  unfold threeDistinct
  decide

/-- Claim C3 as amended: every accepted input read at least 3 coordinates
(counted with multiplicity, not necessarily distinct) before the closing
vertex was considered, and the output is the closed ring of that list. -/
theorem C3_theorem (txt : String) (cs : List (ℚ × ℚ))
    (h : parse_coordinates txt = .ok cs) :
    ∃ pre, gatherCoords (pySplitChar '\n' (pyStrip txt)) = .ok pre ∧ 3 ≤ pre.length ∧
      cs = closeRing pre := by
  rcases parse_ok_inv h with ⟨_, pre, hg, h3, hcs⟩
  exact ⟨pre, hg, h3, hcs⟩

/-- Claim C3 witness: the amended statement at a concrete accepted input. -/
theorem C3_witness :
    parse_coordinates "-21.0,139.0\n-22.0,139.0\n-23.0,139.0" =
        .ok [(-21, 139), (-22, 139), (-23, 139), (-21, 139)] ∧
    ∃ pre,
      gatherCoords (pySplitChar '\n' (pyStrip "-21.0,139.0\n-22.0,139.0\n-23.0,139.0")) =
        .ok pre ∧ 3 ≤ pre.length ∧
      [((-21 : ℚ), (139 : ℚ)), (-22, 139), (-23, 139), (-21, 139)] = closeRing pre :=
  ⟨by decide, C3_theorem "-21.0,139.0\n-22.0,139.0\n-23.0,139.0" _ (by decide)⟩

/-- Claim C4 counterexample: an input with zero valid coordinate lines
(fewer than 3) fails, but with the format error, not the "need at least 3
coordinates" error the claim requires for every such input. -/
theorem C4_counterexample :
    ((pySplitChar '\n' (pyStrip "abc")).filter validCoordLine).length = 0 ∧
    parse_coordinates "abc" = .error (.invalidFormat "abc") ∧
    ParseError.invalidFormat "abc" ≠ ParseError.needAtLeast3 := by
  decide

/-- Claim C4 as amended: an input whose lines are all blank or valid, with
at least one and fewer than three valid coordinate lines, fails with the
explicit minimum-vertex-count error. -/
theorem C4_theorem (txt : String)
    (hval : ∀ l ∈ pySplitChar '\n' (pyStrip txt), pyStrip l = "" ∨ validCoordLine l = true)
    (h1 : 1 ≤ ((pySplitChar '\n' (pyStrip txt)).filter validCoordLine).length)
    (h3 : ((pySplitChar '\n' (pyStrip txt)).filter validCoordLine).length < 3) :
    parse_coordinates txt = .error .needAtLeast3 := by
  have hg := gatherCoords_ok_of_valid hval
  have hlen := filterMap_lineOpt_length_filter (pySplitChar '\n' (pyStrip txt))
  have hne : pyStrip txt ≠ "" := by
    intro h0
    have hls : pySplitChar '\n' (pyStrip txt) = [""] := by rw [h0]; rfl
    rw [hls] at h1
    have hz : ((([""] : List String)).filter validCoordLine).length = 0 := by decide
    omega
  exact parse_eq_too_few hne hg (by rw [hlen]; exact h3)

/-- Claim C4 witness: exactly two valid lines fail with the
minimum-vertex-count error. -/
theorem C4_witness :
    ((pySplitChar '\n' (pyStrip "-21.0,139.0\n-22.0,139.0")).all
        (fun l => (pyStrip l == "") || validCoordLine l) = true ∧
      1 ≤ ((pySplitChar '\n' (pyStrip "-21.0,139.0\n-22.0,139.0")).filter validCoordLine).length ∧
      ((pySplitChar '\n' (pyStrip "-21.0,139.0\n-22.0,139.0")).filter validCoordLine).length < 3) ∧
    parse_coordinates "-21.0,139.0\n-22.0,139.0" = .error .needAtLeast3 :=
  ⟨by decide, C4_theorem "-21.0,139.0\n-22.0,139.0" (by decide) (by decide) (by decide)⟩

/-- Claim C5: when the first and last non-blank input lines coincide, the
parser appends nothing: the output is exactly the gathered list, whose
first and last coordinates agree (one closing vertex, at the end only). -/
theorem C5_theorem (txt : String) (cs : List (ℚ × ℚ))
    (h : parse_coordinates txt = .ok cs)
    (hfl : ((pySplitChar '\n' (pyStrip txt)).filter (fun l => !(pyStrip l == ""))).head? =
      ((pySplitChar '\n' (pyStrip txt)).filter (fun l => !(pyStrip l == ""))).getLast?) :
    gatherCoords (pySplitChar '\n' (pyStrip txt)) = .ok cs ∧ cs.head? = cs.getLast? := by
  rcases parse_ok_inv h with ⟨hne, pre, hg, h3, hcs⟩
  have hpre := gatherCoords_ok_filterMap hg
  have hfilter := gatherCoords_ok_filter_nonblank hg
  have hh : pre.head? =
      (((pySplitChar '\n' (pyStrip txt)).filter (fun l => (lineOpt l).isSome)).head?).bind
        lineOpt := by
    rw [hpre]; exact filterMap_head?_bind _ _
  have hl : pre.getLast? =
      (((pySplitChar '\n' (pyStrip txt)).filter (fun l => (lineOpt l).isSome)).getLast?).bind
        lineOpt := by
    rw [hpre]; exact filterMap_getLast?_bind _ _
  rw [← hfilter] at hh hl
  have heq : pre.head? = pre.getLast? := by rw [hh, hl, hfl]
  have hring : closeRing pre = pre := by rw [closeRing_eq, if_pos heq.symm]
  subst hcs
  rw [hring]
  exact ⟨hg, heq⟩

/-- Claim C5 witness: a concrete closed four-line polygon; the parser
returns the four gathered coordinates without duplicating the closing
vertex. -/
theorem C5_witness :
    (parse_coordinates "-21.0,139.0\n-22.0,139.0\n-23.0,139.0\n-21.0,139.0" =
        .ok [(-21, 139), (-22, 139), (-23, 139), (-21, 139)] ∧
      ((pySplitChar '\n'
          (pyStrip "-21.0,139.0\n-22.0,139.0\n-23.0,139.0\n-21.0,139.0")).filter
          (fun l => !(pyStrip l == ""))).head? =
        ((pySplitChar '\n'
          (pyStrip "-21.0,139.0\n-22.0,139.0\n-23.0,139.0\n-21.0,139.0")).filter
          (fun l => !(pyStrip l == ""))).getLast?) ∧
    (gatherCoords
        (pySplitChar '\n' (pyStrip "-21.0,139.0\n-22.0,139.0\n-23.0,139.0\n-21.0,139.0")) =
      .ok [(-21, 139), (-22, 139), (-23, 139), (-21, 139)] ∧
      [((-21 : ℚ), (139 : ℚ)), (-22, 139), (-23, 139), (-21, 139)].head? =
        [((-21 : ℚ), (139 : ℚ)), (-22, 139), (-23, 139), (-21, 139)].getLast?) :=
  ⟨⟨by decide, by decide⟩,
    C5_theorem "-21.0,139.0\n-22.0,139.0\n-23.0,139.0\n-21.0,139.0" _ (by decide) (by decide)⟩

/-- Claim C7: any input with a non-blank line that does not split into
exactly two comma pieces makes the parser fail; in particular a line
missing the comma fails with the format error naming that line. -/
theorem C7_theorem :
    (∀ txt : String,
      (∃ l ∈ pySplitChar '\n' (pyStrip txt),
        pyStrip l ≠ "" ∧ (pySplitChar ',' (pyStrip l)).length ≠ 2) →
      ∃ e, parse_coordinates txt = .error e) ∧
    parse_coordinates "-21.0 139.0\n-22.0,139.0\n-23.0,139.0" =
      .error (.invalidFormat "-21.0 139.0") := by
  constructor
  · rintro txt ⟨l, hl, hnb, hparts⟩
    have hne : pyStrip txt ≠ "" := by
      intro h0
      have hls : pySplitChar '\n' (pyStrip txt) = [""] := by rw [h0]; rfl
      rw [hls] at hl
      have : l = "" := List.mem_singleton.mp hl
      exact hnb (by rw [this]; decide)
    rcases gatherCoords_error_of_badline ⟨l, hl, hnb, hparts⟩ with ⟨e, he⟩
    exact ⟨e, parse_eq_gather_error hne he⟩
  · decide

/-- Claim C7 witness: a line with two commas (three pieces) makes parsing
fail. -/
theorem C7_witness :
    (∃ l ∈ pySplitChar '\n' (pyStrip "-21.0,139.0\n-22.0,,139.0\n-23.0,139.0"),
      pyStrip l ≠ "" ∧ (pySplitChar ',' (pyStrip l)).length ≠ 2) ∧
    ∃ e, parse_coordinates "-21.0,139.0\n-22.0,,139.0\n-23.0,139.0" = .error e :=
  ⟨by decide, C7_theorem.1 "-21.0,139.0\n-22.0,,139.0\n-23.0,139.0" (by decide)⟩

/-- Claim C8: the summarizer always renders a string (the outer handler
turns the only escaping exception into an error status string), and when
coordinate parsing fails for any reason the rendered summary reports the
coordinates as invalid or missing instead of propagating the error. -/
theorem C8_theorem :
    (∀ st : FormState,
      (∃ terms, buildTerms st = .ok terms ∧
        update_summary st = summaryText st terms (coordsInfo st)) ∨
      (∃ key, buildTerms st = .error key ∧
        update_summary st = "Error updating summary: \x27" ++ key ++ "\x27")) ∧
    (∀ (st : FormState) (e : ParseError) (terms : String),
      parse_coordinates st.coords_text = .error e → buildTerms st = .ok terms →
      ∃ p q, update_summary st = p ++ ("Invalid or missing coordinates" ++ q)) := by
  constructor
  · intro st
    rcases hb : buildTerms st with key | terms
    · right
      exact ⟨key, rfl, by unfold update_summary; rw [hb]⟩
    · left
      exact ⟨terms, rfl, by unfold update_summary; rw [hb]⟩
  · intro st e terms hp hb
    refine ⟨summaryHeader st, summaryRest st terms, ?_⟩
    unfold update_summary
    rw [hb]
    unfold summaryText coordsInfo
    rw [hp]

/-- Claim C8 witness: a state with unparseable coordinate text still
renders a summary reporting the coordinates as invalid or missing. -/
theorem C8_witness :
    (parse_coordinates
        (FormState.mk "Custom Polygon" "Geological Data" "everything" "" "All formats" "10"
          "out" false false "bad" []).coords_text = .error (.invalidFormat "bad") ∧
      buildTerms
        (FormState.mk "Custom Polygon" "Geological Data" "everything" "" "All formats" "10"
          "out" false false "bad" []) = .ok "*:* (everything)") ∧
    ∃ p q,
      update_summary
        (FormState.mk "Custom Polygon" "Geological Data" "everything" "" "All formats" "10"
          "out" false false "bad" []) = p ++ ("Invalid or missing coordinates" ++ q) :=
  ⟨⟨by decide, by decide⟩,
    C8_theorem.2
      (FormState.mk "Custom Polygon" "Geological Data" "everything" "" "All formats" "10"
        "out" false false "bad" [])
      (.invalidFormat "bad") "*:* (everything)" (by decide) (by decide)⟩

